import Mathlib

/-!
Verification development for the Nokia IXR-7250 chassis `Module` accessor
(`src/chassis/sonic_platform/module.py`).

The Python class `Module` (a `ModuleBase` subclass) is embedded shallowly:
its instance attributes become fields of a Lean structure, and each accessor
method becomes a pure function from the module state and a per-call
description of the remote collaborator's behaviour (channel setup outcome,
RPC outcome, response payload) to a result, a new state, and the request it
issued over the wire (if any).

External collaborators (`sonic_platform_base.module_base`, `platform_ndk`,
protobuf messages) are not in the repository; their constants and enums are
modelled below from the spec and the way this file's code uses them.
-/

namespace SonicPlatform

/-- Modelled from the spec: `ModuleBase.MODULE_STATUS_EMPTY` status string
from the external `sonic_platform_base` collaborator ("defaults to Empty"). -/
def MODULE_STATUS_EMPTY : String := "Empty"

/-- Modelled from the spec: `ModuleBase.MODULE_STATUS_ONLINE` status string
from the external `sonic_platform_base` collaborator. -/
def MODULE_STATUS_ONLINE : String := "Online"

/-- Modelled from the spec: `ModuleBase.MODULE_TYPE_SUPERVISOR` kind string
from the external `sonic_platform_base` collaborator. -/
def MODULE_TYPE_SUPERVISOR : String := "SUPERVISOR"

/-- Modelled from the spec: `ModuleBase.MODULE_TYPE_LINE` kind string
from the external `sonic_platform_base` collaborator. -/
def MODULE_TYPE_LINE : String := "LINE-CARD"

/-- Modelled from the spec: `ModuleBase.MODULE_TYPE_FABRIC` kind string from
the external `sonic_platform_base` collaborator; also the fabric-module name
prefix tested by `get_all_asics`. -/
def MODULE_TYPE_FABRIC : String := "FABRIC-CARD"

/-- Modelled from the spec: `nokia_common.NOKIA_INVALID_IP`, the
invalid-address sentinel of the external `platform_ndk` collaborator. -/
def NOKIA_INVALID_IP : String := "0.0.0.0"

/-- Modelled from the spec: `platform_ndk_pb2.ResponseCode.NDK_SUCCESS`, the
response status code of the external protobuf collaborator that indicates
success. -/
def NDK_SUCCESS : Nat := 0

/-- Modelled from the spec: the distinct
`platform_ndk_pb2.ResponseCode.NDK_ERR_RESOURCE_NOT_FOUND` response status
code of the external protobuf collaborator. -/
def NDK_ERR_RESOURCE_NOT_FOUND : Nat := 2

/-- Modelled from the spec: the `platform_ndk_pb2.HwModuleType` protobuf enum
of the external collaborator (module-type codes used in requests). -/
inductive HwModuleType where
  | HW_MODULE_TYPE_CONTROL
  | HW_MODULE_TYPE_LINE
  | HW_MODULE_TYPE_FABRIC
deriving DecidableEq, Repr

/-- Modelled from the spec: the `platform_ndk_pb2.HwChassisType` protobuf
enum of the external collaborator (chassis-size variants). -/
inductive HwChassisType where
  | HW_CHASSIS_TYPE_IXR6
  | HW_CHASSIS_TYPE_IXR10
  | HW_CHASSIS_TYPE_UNKNOWN
deriving DecidableEq, Repr

/-- The dynamically-typed value `get_platform_type` returns: either one of
the `HwModuleType` enum codes, or the Python string `'Unknown card-type'`. -/
inductive PlatformTypeVal where
  | enum (t : HwModuleType)
  | str (s : String)
deriving DecidableEq, Repr

/-- Modelled from the spec: one `asic_entry` element of the
`GetFabricPcieInfo` response of the external protobuf collaborator. -/
structure AsicEntryPb where
  asic_idx : Int
  asic_pcie_id : String
deriving DecidableEq, Repr

/-- Modelled from the spec: the `pcie_info` message of the external protobuf
collaborator, an ordered sequence of ASIC entries. -/
structure RespPcieInfoPb where
  asic_entry : List AsicEntryPb
deriving DecidableEq, Repr

/-- Modelled from the spec: `platform_ndk_pb2.ReqModuleInfoPb`, the request
message sent to the remote service.  Fields the Python code leaves at their
protobuf defaults are `none`. -/
structure ReqModuleInfoPb where
  module_type : Option PlatformTypeVal
  hw_slot : Int
  reboot_type : Option Int
deriving DecidableEq, Repr

/-- Modelled from the spec: the response message of the external protobuf
collaborator, holding every field this file's code reads. -/
structure RespModuleInfoPb where
  name : String
  status : Nat
  response_status_code : Nat
  midplane_ip : String
  midplane_status : Bool
  pcie_info : RespPcieInfoPb
deriving Repr

/-- Behaviour of the external collaborators for one accessor call:
whether `nokia_common.channel_setup` yields a truthy channel and stub
(`conn_ok`), the `ret` flag of `nokia_common.try_grpc`, the response message,
the value `nokia_common.get_chassis_type()` would return, the value
`nokia_common._get_my_slot()` would return, and the
`nokia_common.hw_module_status_name` translation of raw status codes. -/
structure GrpcEnv where
  conn_ok : Bool
  ret : Bool
  response : RespModuleInfoPb
  chassis_type : HwChassisType
  my_slot : Int
  hw_module_status_name : Nat → String

/-- `DESCRIPTION_MAPPING` of `module.py`: raw hardware model identifiers to
marketing product names, in source order. -/
def DESCRIPTION_MAPPING : List (String × String) :=
  [("imm32-100g-qsfp28+4-400g-qsfpdd", "Nokia-IXR7250-32x100G-4x400G"),
   ("cpm-ixr", "Nokia-IXR7250-SUP"),
   ("cpm2-ixr", "Nokia-IXR7250-SUP"),
   ("imm36-400g-qsfpdd", "Nokia-IXR7250E-36x400G"),
   ("imm60-100g-qsfp28", "Nokia-IXR7250E-60x100G"),
   ("cpm2-ixr-e", "Nokia-IXR7250E-SUP-10"),
   ("cpm4-ixr", "Nokia-IXR7250E-SUP-10")]

/-- Python exceptions an accessor can raise in this embedding. -/
inductive PyExc where
  | attributeError
deriving DecidableEq, Repr

/-- Character-list core of `py_startswith`: does the first list start with
the second? -/
def chars_start_with : List Char → List Char → Bool
  | _, [] => true
  | [], _ :: _ => false
  | c :: cs, d :: ds => c == d && chars_start_with cs ds

/-- Python `s.startswith(p)`, modelled on the character sequences of the two
strings. -/
def py_startswith (s p : String) : Bool :=
  chars_start_with s.data p.data

/-- Instance-attribute state of one Python `Module` object.
`midplane_ip` is `none` while the Python object has no `midplane_ip`
attribute at all: `__init__` assigns `self.midplane_status`, not
`self.midplane_ip`, and only the success path of `get_midplane_ip` ever
creates the `midplane_ip` attribute.  Reading it while absent raises
`AttributeError` in Python. -/
structure Module where
  module_index : Nat
  module_name : String
  module_type : String
  hw_slot : Int
  oper_status : String
  midplane_status : String
  midplane_ip : Option String
  max_consumed_power : Rat
  eeprom : Option Unit
deriving Repr

/-- `Module.__init__`: `my_slot` is the value `nokia_common._get_my_slot()`
returns at construction time (the local host's slot). -/
def Module.init (module_index : Nat) (module_name : String)
    (module_type : String) (module_slot : Int) (my_slot : Int) : Module :=
  { module_index := module_index
    module_name := module_name
    module_type := module_type
    hw_slot := module_slot
    oper_status := MODULE_STATUS_EMPTY
    midplane_status := NOKIA_INVALID_IP
    midplane_ip := none
    max_consumed_power := 0
    eeprom := if my_slot == module_slot then some () else none }

/-- `Module.get_name`. -/
def Module.get_name (m : Module) : String :=
  m.module_name

/-- `Module._get_hw_slot`. -/
def Module.hw_slot_of (m : Module) : Int :=
  m.hw_slot

/-- `Module.get_type`. -/
def Module.get_type (m : Module) : String :=
  m.module_type

/-- `Module.get_platform_type`. -/
def Module.get_platform_type (m : Module) : PlatformTypeVal :=
  if m.get_type == MODULE_TYPE_SUPERVISOR then
    .enum .HW_MODULE_TYPE_CONTROL
  else if m.get_type == MODULE_TYPE_LINE then
    .enum .HW_MODULE_TYPE_LINE
  else if m.get_type == MODULE_TYPE_FABRIC then
    .enum .HW_MODULE_TYPE_FABRIC
  else
    .str "Unknown card-type"

/-- `Module.get_description`.  Returns the description string and the request
issued via `try_grpc`, if any (`none` when no RPC was attempted). -/
def Module.get_description (m : Module) (env : GrpcEnv) :
    String × Option ReqModuleInfoPb :=
  if !env.conn_ok then
    ("Unavailable", none)
  else
    let platform_module_type := m.get_platform_type
    let req : ReqModuleInfoPb :=
      { module_type := some platform_module_type
        hw_slot := m.hw_slot_of
        reboot_type := none }
    if !env.ret then
      ("Unavailable", some req)
    else
      match DESCRIPTION_MAPPING.lookup env.response.name with
      | none => (env.response.name, some req)
      | some mapped =>
        if platform_module_type == .enum .HW_MODULE_TYPE_CONTROL then
          if env.chassis_type == .HW_CHASSIS_TYPE_IXR6 then
            ("Nokia-IXR7250-SUP-6", some req)
          else
            ("Nokia-IXR7250-SUP-10", some req)
        else
          (mapped, some req)

/-- `Module.get_oper_status`.  Returns the status string, the new object
state, and the request issued via `try_grpc`, if any. -/
def Module.get_oper_status (m : Module) (env : GrpcEnv) :
    String × Module × Option ReqModuleInfoPb :=
  if !env.conn_ok then
    (m.oper_status, m, none)
  else
    let req : ReqModuleInfoPb :=
      { module_type := some m.get_platform_type
        hw_slot := m.hw_slot_of
        reboot_type := none }
    if !env.ret then
      (m.oper_status, m, some req)
    else
      let s := env.hw_module_status_name env.response.status
      (s, { m with oper_status := s }, some req)

/-- `Module.get_presence`: derives from `get_oper_status` (which may refresh
the cached status as a side effect). -/
def Module.get_presence (m : Module) (env : GrpcEnv) :
    Bool × Module × Option ReqModuleInfoPb :=
  let r := m.get_oper_status env
  (if r.1 == MODULE_STATUS_EMPTY then false else true, r.2.1, r.2.2)

/-- `Module.get_status`: derives from `get_oper_status`. -/
def Module.get_status (m : Module) (env : GrpcEnv) :
    Bool × Module × Option ReqModuleInfoPb :=
  let r := m.get_oper_status env
  (if r.1 == MODULE_STATUS_ONLINE then true else false, r.2.1, r.2.2)

/-- `Module.get_position_in_parent`. -/
def Module.get_position_in_parent (m : Module) : Int :=
  m.hw_slot

/-- `Module.is_replaceable`. -/
def Module.is_replaceable (_m : Module) : Bool :=
  true

/-- `Module.reboot`.  Returns the outcome and the request issued via
`try_grpc`, if any (`none` when the method refused or never reached the RPC). -/
def Module.reboot (m : Module) (env : GrpcEnv) (reboot_type : Int) :
    Bool × Option ReqModuleInfoPb :=
  if m.get_type == MODULE_TYPE_FABRIC then
    (false, none)
  else if env.my_slot != m.hw_slot_of then
    (false, none)
  else if !env.conn_ok then
    (false, none)
  else
    let req : ReqModuleInfoPb :=
      { module_type := some m.get_platform_type
        hw_slot := m.hw_slot_of
        reboot_type := some reboot_type }
    if !env.ret then
      (false, some req)
    else if env.response.response_status_code != NDK_SUCCESS then
      (false, some req)
    else
      (true, some req)

/-- `Module.set_admin_state`. -/
def Module.set_admin_state (_m : Module) (_up : Bool) : Bool :=
  false

/-- `Module.set_maximum_consumed_power`: stores the value verbatim. -/
def Module.set_maximum_consumed_power (m : Module) (consumed_power : Rat) :
    Module :=
  { m with max_consumed_power := consumed_power }

/-- `Module.get_maximum_consumed_power`: consults `get_oper_status` (an RPC
that may refresh the cached status), then returns 0 or the stored ceiling. -/
def Module.get_maximum_consumed_power (m : Module) (env : GrpcEnv) :
    Rat × Module :=
  let r := m.get_oper_status env
  if r.1 == MODULE_STATUS_EMPTY then
    (0, r.2.1)
  else
    (r.2.1.max_consumed_power, r.2.1)

/-- `Module.get_midplane_ip`.  Both failure paths read `self.midplane_ip`,
an attribute that exists only after a prior successful call; reading it while
absent raises `AttributeError`.  Returns the result (or exception), the new
object state, and the request issued via `try_grpc`, if any. -/
def Module.get_midplane_ip (m : Module) (env : GrpcEnv) :
    Except PyExc String × Module × Option ReqModuleInfoPb :=
  if !env.conn_ok then
    (match m.midplane_ip with
     | none => .error .attributeError
     | some ip => .ok ip,
     m, none)
  else
    let req : ReqModuleInfoPb :=
      { module_type := none
        hw_slot := m.hw_slot_of
        reboot_type := none }
    if !env.ret then
      (match m.midplane_ip with
       | none => .error .attributeError
       | some ip => .ok ip,
       m, some req)
    else
      (.ok env.response.midplane_ip,
       { m with midplane_ip := some env.response.midplane_ip }, some req)

/-- `Module.is_midplane_reachable`: never caches. -/
def Module.is_midplane_reachable (m : Module) (env : GrpcEnv) :
    Bool × Option ReqModuleInfoPb :=
  if !env.conn_ok then
    (false, none)
  else
    let req : ReqModuleInfoPb :=
      { module_type := none
        hw_slot := m.hw_slot_of
        reboot_type := none }
    if !env.ret then
      (false, some req)
    else
      (env.response.midplane_status, some req)

/-- `Module.get_all_asics`.  Returns the ordered `(str(asic_idx),
str(asic_pcie_id))` pairs and the request issued via `try_grpc`, if any. -/
def Module.get_all_asics (m : Module) (env : GrpcEnv) :
    List (String × String) × Option ReqModuleInfoPb :=
  if !(py_startswith m.get_name MODULE_TYPE_FABRIC) then
    ([], none)
  else if !env.conn_ok then
    ([], none)
  else
    let req : ReqModuleInfoPb :=
      { module_type := none
        hw_slot := m.hw_slot_of
        reboot_type := none }
    if !env.ret then
      ([], some req)
    else if env.response.response_status_code == NDK_ERR_RESOURCE_NOT_FOUND then
      ([], some req)
    else
      (env.response.pcie_info.asic_entry.map
        (fun a => (toString a.asic_idx, a.asic_pcie_id)), some req)

/-! Concrete fixtures used by witnesses and counterexamples. -/

/-- An all-default response payload. -/
def respA : RespModuleInfoPb :=
  { name := ""
    status := 0
    response_status_code := 0
    midplane_ip := ""
    midplane_status := false
    pcie_info := { asic_entry := [] } }

/-- A concrete status translation for fixtures. -/
def trOnline : Nat → String :=
  fun _ => MODULE_STATUS_ONLINE

/-- Collaborator behaviour: channel setup fails. -/
def envConnFail : GrpcEnv :=
  { conn_ok := false
    ret := false
    response := respA
    chassis_type := .HW_CHASSIS_TYPE_UNKNOWN
    my_slot := 1
    hw_module_status_name := trOnline }

/-- Collaborator behaviour: channel set up, RPC fails. -/
def envRpcFail : GrpcEnv :=
  { envConnFail with conn_ok := true }

/-- Collaborator behaviour: channel set up, RPC succeeds with `respA`. -/
def envOk : GrpcEnv :=
  { envConnFail with conn_ok := true, ret := true }

/-- C1: refuted by the code.  A freshly constructed `Module` has no
`midplane_ip` attribute (`__init__` assigns `midplane_status` instead), so
the connection-failure path of `get_midplane_ip` raises `AttributeError`
rather than returning a safe default. -/
theorem get_midplane_ip_raises_on_conn_failure :
    ((Module.init 1 "line-card 1" MODULE_TYPE_LINE 1 1).get_midplane_ip
      envConnFail).1 = Except.error PyExc.attributeError := by
  rfl

/-- C2: refuted by the code.  Before any successful query, a connection that
succeeds but whose RPC fails makes `get_midplane_ip` raise `AttributeError`
instead of returning the invalid-address sentinel: the sentinel was stored
under the attribute `midplane_status`, which `get_midplane_ip` never reads. -/
theorem get_midplane_ip_raises_on_rpc_failure :
    ((Module.init 1 "line-card 1" MODULE_TYPE_LINE 1 1).get_midplane_ip
      envRpcFail).1 = Except.error PyExc.attributeError := by
  rfl

/-- C5: for a Supervisor module whose name lookup succeeds with raw name
"cpm2-ixr-e", `get_description` returns "Nokia-IXR7250-SUP-6" when the
chassis type is IXR6 and "Nokia-IXR7250-SUP-10" for any other chassis type. -/
theorem get_description_supervisor_cpm2_ixr_e (idx : Nat) (nm : String)
    (slot my : Int) (ct : HwChassisType) (resp : RespModuleInfoPb)
    (tr : Nat → String) :
    ((Module.init idx nm MODULE_TYPE_SUPERVISOR slot my).get_description
      { conn_ok := true
        ret := true
        response := { resp with name := "cpm2-ixr-e" }
        chassis_type := ct
        my_slot := my
        hw_module_status_name := tr }).1
    = if ct = .HW_CHASSIS_TYPE_IXR6 then "Nokia-IXR7250-SUP-6"
      else "Nokia-IXR7250-SUP-10" := by
  cases ct <;> rfl

/-- C8: `get_presence` is false exactly when the `get_oper_status` it invokes
yields Empty, and `get_status` is true exactly when it yields Online. -/
theorem presence_and_status_from_oper_status (m : Module) (env : GrpcEnv) :
    (m.get_presence env).1 = !((m.get_oper_status env).1 == MODULE_STATUS_EMPTY) ∧
    (m.get_status env).1 = ((m.get_oper_status env).1 == MODULE_STATUS_ONLINE) := by
  constructor
  · cases h : (m.get_oper_status env).1 == MODULE_STATUS_EMPTY <;>
      simp [Module.get_presence, h]
  · cases h : (m.get_oper_status env).1 == MODULE_STATUS_ONLINE <;>
      simp [Module.get_status, h]

/-- Collaborator behaviour: RPC succeeds with a resource-not-found status. -/
def envNotFound : GrpcEnv :=
  { envOk with
      response := { respA with
        response_status_code := NDK_ERR_RESOURCE_NOT_FOUND } }

/-- Collaborator behaviour: RPC succeeds with two PCIe ASIC entries. -/
def envPcie : GrpcEnv :=
  { envOk with
      response := { respA with
        pcie_info := { asic_entry :=
          [{ asic_idx := 0, asic_pcie_id := "pcie0" },
           { asic_idx := 1, asic_pcie_id := "pcie1" }] } } }

/-- C3: `reboot` refuses — false, no request issued — for Fabric kind or a
hardware slot other than the local host's; otherwise the result is true iff
the connection succeeded, the RPC succeeded, and the response status code is
`NDK_SUCCESS`. -/
theorem reboot_refusal_and_success_criterion (m : Module) (env : GrpcEnv)
    (rt : Int) :
    (m.module_type = MODULE_TYPE_FABRIC → m.reboot env rt = (false, none)) ∧
    (env.my_slot ≠ m.hw_slot → m.reboot env rt = (false, none)) ∧
    (m.module_type ≠ MODULE_TYPE_FABRIC → env.my_slot = m.hw_slot →
      ((m.reboot env rt).1 = true ↔
        env.conn_ok = true ∧ env.ret = true ∧
        env.response.response_status_code = NDK_SUCCESS)) := by
  refine ⟨?_, ?_, ?_⟩
  · intro h
    simp [Module.reboot, Module.get_type, h]
  · intro h
    unfold Module.reboot
    split
    · rfl
    · simp [Module.hw_slot_of, h]
  · intro h1 h2
    cases hc : env.conn_ok <;> cases hr : env.ret
    all_goals
      simp only [Module.reboot, Module.get_type, Module.hw_slot_of,
        beq_iff_eq, bne_iff_ne, ne_eq, h1, h2, hc, hr, if_false, if_true,
        not_false_eq_true, not_true_eq_false, Bool.not_true, Bool.not_false,
        ite_false, ite_true, if_neg, decide_not]
    all_goals repeat' split
    all_goals simp_all

/-- C3 witness: a fabric module and a remote-slot module are refused with no
request, and a local line module with a successful call reboots. -/
theorem reboot_refusal_and_success_criterion_witness :
    (Module.init 1 "Fabric0" MODULE_TYPE_FABRIC 1 1).reboot envConnFail 0
      = (false, none) ∧
    (Module.init 2 "line-card 2" MODULE_TYPE_LINE 2 1).reboot envConnFail 0
      = (false, none) ∧
    ((Module.init 1 "line-card 1" MODULE_TYPE_LINE 1 1).reboot envOk 0).1
      = true := by
  refine ⟨?_, ?_, ?_⟩
  · exact (reboot_refusal_and_success_criterion _ _ _).1 rfl
  · exact (reboot_refusal_and_success_criterion _ _ _).2.1 (by decide)
  · exact ((reboot_refusal_and_success_criterion _ _ _).2.2
      (by decide) (by decide)).mpr ⟨rfl, rfl, rfl⟩

/-- C4: `get_oper_status` leaves the cache and the returned value at the last
cached status on connection or RPC failure, and on success returns the
translated response status and stores it in the cache. -/
theorem get_oper_status_cache_policy (m : Module) (env : GrpcEnv) :
    (env.conn_ok = false → m.get_oper_status env = (m.oper_status, m, none)) ∧
    (env.conn_ok = true → env.ret = false →
      (m.get_oper_status env).1 = m.oper_status ∧
      (m.get_oper_status env).2.1 = m) ∧
    (env.conn_ok = true → env.ret = true →
      (m.get_oper_status env).1
        = env.hw_module_status_name env.response.status ∧
      (m.get_oper_status env).2.1
        = { m with oper_status :=
              env.hw_module_status_name env.response.status }) := by
  refine ⟨?_, ?_, ?_⟩
  · intro h
    simp [Module.get_oper_status, h]
  · intro h1 h2
    simp [Module.get_oper_status, h1, h2]
  · intro h1 h2
    simp [Module.get_oper_status, h1, h2]

/-- C4 witness: on a fresh module the cached Empty status survives connection
and RPC failure, and a successful call stores the translated status. -/
theorem get_oper_status_cache_policy_witness :
    ((Module.init 1 "line-card 1" MODULE_TYPE_LINE 1 1).get_oper_status
      envConnFail).1 = MODULE_STATUS_EMPTY ∧
    ((Module.init 1 "line-card 1" MODULE_TYPE_LINE 1 1).get_oper_status
      envRpcFail).1 = MODULE_STATUS_EMPTY ∧
    ((Module.init 1 "line-card 1" MODULE_TYPE_LINE 1 1).get_oper_status
      envOk).2.1.oper_status = MODULE_STATUS_ONLINE := by
  refine ⟨?_, ?_, ?_⟩
  · exact (congrArg Prod.fst
      ((get_oper_status_cache_policy _ envConnFail).1 rfl)).trans rfl
  · exact ((get_oper_status_cache_policy _ envRpcFail).2.1 rfl rfl).1.trans rfl
  · exact (congrArg Module.oper_status
      ((get_oper_status_cache_policy _ envOk).2.2 rfl rfl).2).trans rfl

/-- C6: `get_all_asics` is empty with no request for a non-fabric-named
module, empty on connection failure, RPC failure, or a resource-not-found
status, and on success returns the stringified ASIC pairs in response
order. -/
theorem get_all_asics_behaviour (m : Module) (env : GrpcEnv) :
    (py_startswith m.module_name MODULE_TYPE_FABRIC = false →
      m.get_all_asics env = ([], none)) ∧
    (env.conn_ok = false → m.get_all_asics env = ([], none)) ∧
    (env.conn_ok = true → env.ret = false → (m.get_all_asics env).1 = []) ∧
    (env.conn_ok = true → env.ret = true →
      env.response.response_status_code = NDK_ERR_RESOURCE_NOT_FOUND →
      (m.get_all_asics env).1 = []) ∧
    (py_startswith m.module_name MODULE_TYPE_FABRIC = true →
      env.conn_ok = true → env.ret = true →
      env.response.response_status_code ≠ NDK_ERR_RESOURCE_NOT_FOUND →
      (m.get_all_asics env).1 =
        env.response.pcie_info.asic_entry.map
          (fun a => (toString a.asic_idx, a.asic_pcie_id))) := by
  refine ⟨?_, ?_, ?_, ?_, ?_⟩
  · intro h
    simp [Module.get_all_asics, Module.get_name, h]
  · intro h
    unfold Module.get_all_asics
    split
    · rfl
    · simp [h]
  · intro h1 h2
    unfold Module.get_all_asics
    split
    · rfl
    · simp [h1, h2]
  · intro h1 h2 h3
    unfold Module.get_all_asics
    split
    · rfl
    · simp [h1, h2, h3]
  · intro h0 h1 h2 h3
    simp [Module.get_all_asics, Module.get_name, h0, h1, h2, h3]

/-- C6 witness: a non-fabric-named module yields no call; a fabric-named
module yields empty on the three failure shapes and the ordered stringified
pairs on success. -/
theorem get_all_asics_behaviour_witness :
    (Module.init 1 "line-card 1" MODULE_TYPE_LINE 1 1).get_all_asics envPcie
      = ([], none) ∧
    (Module.init 3 "FABRIC-CARD0" MODULE_TYPE_FABRIC 3 1).get_all_asics
      envConnFail = ([], none) ∧
    ((Module.init 3 "FABRIC-CARD0" MODULE_TYPE_FABRIC 3 1).get_all_asics
      envRpcFail).1 = [] ∧
    ((Module.init 3 "FABRIC-CARD0" MODULE_TYPE_FABRIC 3 1).get_all_asics
      envNotFound).1 = [] ∧
    ((Module.init 3 "FABRIC-CARD0" MODULE_TYPE_FABRIC 3 1).get_all_asics
      envPcie).1 = [("0", "pcie0"), ("1", "pcie1")] := by
  refine ⟨?_, ?_, ?_, ?_, ?_⟩
  · exact (get_all_asics_behaviour _ envPcie).1 (by decide)
  · exact (get_all_asics_behaviour _ envConnFail).2.1 rfl
  · exact (get_all_asics_behaviour _ envRpcFail).2.2.1 rfl rfl
  · exact (get_all_asics_behaviour _ envNotFound).2.2.2.1 rfl rfl rfl
  · exact ((get_all_asics_behaviour _ envPcie).2.2.2.2
      (by decide) rfl rfl (by decide)).trans (by decide)

/-- C7: after `set_maximum_consumed_power v`, `get_maximum_consumed_power`
returns 0 when the operational status it observes is Empty and the stored
value `v` otherwise. -/
theorem get_maximum_consumed_power_policy (m : Module) (env : GrpcEnv)
    (v : Rat) :
    ((m.set_maximum_consumed_power v).get_maximum_consumed_power env).1
      = if ((m.set_maximum_consumed_power v).get_oper_status env).1
            = MODULE_STATUS_EMPTY
        then 0 else v := by
  have hmax :
      ((m.set_maximum_consumed_power v).get_oper_status env).2.1.max_consumed_power
        = v := by
    unfold Module.get_oper_status
    split
    · rfl
    · split
      · rfl
      · rfl
  by_cases h :
      ((m.set_maximum_consumed_power v).get_oper_status env).1
        = MODULE_STATUS_EMPTY
  · simp [Module.get_maximum_consumed_power, h]
  · simp [Module.get_maximum_consumed_power, h, hmax]

/-- C9: at construction the EEPROM handle is populated iff the hardware slot
equals the local host's slot, and every state-returning operation leaves the
handle unchanged. -/
theorem eeprom_presence_invariant (idx : Nat) (nm ty : String)
    (slot my : Int) (m : Module) (env : GrpcEnv) (v : Rat) :
    ((Module.init idx nm ty slot my).eeprom.isSome = (my == slot)) ∧
    ((m.get_oper_status env).2.1.eeprom = m.eeprom) ∧
    ((m.get_presence env).2.1.eeprom = m.eeprom) ∧
    ((m.get_status env).2.1.eeprom = m.eeprom) ∧
    ((m.get_maximum_consumed_power env).2.eeprom = m.eeprom) ∧
    ((m.set_maximum_consumed_power v).eeprom = m.eeprom) ∧
    ((m.get_midplane_ip env).2.1.eeprom = m.eeprom) := by
  have hoper : (m.get_oper_status env).2.1.eeprom = m.eeprom := by
    unfold Module.get_oper_status
    split
    · rfl
    · split
      · rfl
      · rfl
  refine ⟨?_, hoper, ?_, ?_, ?_, rfl, ?_⟩
  · cases h : my == slot <;> simp [Module.init, h]
  · simpa [Module.get_presence] using hoper
  · simpa [Module.get_status] using hoper
  · simp only [Module.get_maximum_consumed_power]
    split
    · exact hoper
    · exact hoper
  · unfold Module.get_midplane_ip
    split
    · rfl
    · split
      · rfl
      · rfl

/-- Any request `get_description` issues has `module_type` set to
`get_platform_type`. -/
theorem get_description_req_shape (m : Module) (env : GrpcEnv) :
    (m.get_description env).2 = none ∨
    (m.get_description env).2
      = some { module_type := some m.get_platform_type
               hw_slot := m.hw_slot_of
               reboot_type := none } := by
  unfold Module.get_description
  dsimp only
  repeat' split
  all_goals first | exact Or.inl rfl | exact Or.inr rfl

/-- Any request `get_oper_status` issues has `module_type` set to
`get_platform_type`. -/
theorem get_oper_status_req_shape (m : Module) (env : GrpcEnv) :
    (m.get_oper_status env).2.2 = none ∨
    (m.get_oper_status env).2.2
      = some { module_type := some m.get_platform_type
               hw_slot := m.hw_slot_of
               reboot_type := none } := by
  unfold Module.get_oper_status
  dsimp only
  repeat' split
  all_goals first | exact Or.inl rfl | exact Or.inr rfl

/-- Any request `reboot` issues has `module_type` set to
`get_platform_type`. -/
theorem reboot_req_shape (m : Module) (env : GrpcEnv) (rt : Int) :
    (m.reboot env rt).2 = none ∨
    (m.reboot env rt).2
      = some { module_type := some m.get_platform_type
               hw_slot := m.hw_slot_of
               reboot_type := some rt } := by
  unfold Module.reboot
  dsimp only
  repeat' split
  all_goals first | exact Or.inl rfl | exact Or.inr rfl

/-- C10: for a kind that is none of Supervisor, Line, or Fabric,
`get_platform_type` is the string 'Unknown card-type', and any request issued
by `get_description`, `get_oper_status`, or `reboot` carries that string as
its `module_type` field. -/
theorem unknown_card_type_flows_to_requests (m : Module) (env : GrpcEnv)
    (rt : Int) (r1 r2 r3 : ReqModuleInfoPb)
    (h1 : m.module_type ≠ MODULE_TYPE_SUPERVISOR)
    (h2 : m.module_type ≠ MODULE_TYPE_LINE)
    (h3 : m.module_type ≠ MODULE_TYPE_FABRIC) :
    m.get_platform_type = .str "Unknown card-type" ∧
    ((m.get_description env).2 = some r1 →
      r1.module_type = some (.str "Unknown card-type")) ∧
    ((m.get_oper_status env).2.2 = some r2 →
      r2.module_type = some (.str "Unknown card-type")) ∧
    ((m.reboot env rt).2 = some r3 →
      r3.module_type = some (.str "Unknown card-type")) := by
  have hpt : m.get_platform_type = .str "Unknown card-type" := by
    simp [Module.get_platform_type, Module.get_type, h1, h2, h3]
  refine ⟨hpt, ?_, ?_, ?_⟩
  · intro h
    rcases get_description_req_shape m env with hh | hh
    · rw [hh] at h
      exact absurd h (by simp)
    · have hr := Option.some.inj (hh.symm.trans h)
      rw [← hr]
      simp [hpt]
  · intro h
    rcases get_oper_status_req_shape m env with hh | hh
    · rw [hh] at h
      exact absurd h (by simp)
    · have hr := Option.some.inj (hh.symm.trans h)
      rw [← hr]
      simp [hpt]
  · intro h
    rcases reboot_req_shape m env rt with hh | hh
    · rw [hh] at h
      exact absurd h (by simp)
    · have hr := Option.some.inj (hh.symm.trans h)
      rw [← hr]
      simp [hpt]

/-- C10 witness: a module of kind "WEIRD-CARD" gets platform type 'Unknown
card-type' and its issued requests carry that string. -/
theorem unknown_card_type_flows_to_requests_witness :
    (Module.init 1 "cpm-x" "WEIRD-CARD" 1 1).get_platform_type
      = .str "Unknown card-type" ∧
    (ReqModuleInfoPb.module_type
      { module_type := some (.str "Unknown card-type")
        hw_slot := 1
        reboot_type := none })
      = some (.str "Unknown card-type") ∧
    (ReqModuleInfoPb.module_type
      { module_type := some (.str "Unknown card-type")
        hw_slot := 1
        reboot_type := some 0 })
      = some (.str "Unknown card-type") := by
  have t := unknown_card_type_flows_to_requests
    (Module.init 1 "cpm-x" "WEIRD-CARD" 1 1) envOk 0
    { module_type := some (.str "Unknown card-type")
      hw_slot := 1
      reboot_type := none }
    { module_type := some (.str "Unknown card-type")
      hw_slot := 1
      reboot_type := none }
    { module_type := some (.str "Unknown card-type")
      hw_slot := 1
      reboot_type := some 0 }
    (by decide) (by decide) (by decide)
  exact ⟨t.1, t.2.1 (by decide), t.2.2.2 (by decide)⟩

end SonicPlatform
